import Mathlib

/-!
Shallow embedding of the omnirec source-picker core: window-table parsing and
output formatting (picker_logic.cpp), socket-path resolution and the
length-prefixed IPC client (ipc_client.cpp), approval-token generation
(dialog.cpp), and the selection workflow (runPicker in main.cpp).

External effects (local sockets, the consent dialog, the spawned fallback
process, the RNG, environment variables) are supplied as explicit oracle
values; the observable actions of a run (connection attempts, frames sent,
consent prompts, stdout lines, fallback launches) are recorded as an event
trace so that ordering properties can be stated.
-/

namespace OmniRec

/-- Value of a decimal digit, as accepted by QString::toULongLong. -/
def decDigitVal (c : Char) : Option Nat :=
  if '0' ≤ c ∧ c ≤ '9' then some (c.toNat - 48) else none

/-- Value of a hexadecimal digit; QString::toULongLong with base 16 accepts
both lowercase and uppercase letters. -/
def hexDigitVal (c : Char) : Option Nat :=
  if '0' ≤ c ∧ c ≤ '9' then some (c.toNat - 48)
  else if 'a' ≤ c ∧ c ≤ 'f' then some (c.toNat - 87)
  else if 'A' ≤ c ∧ c ≤ 'F' then some (c.toNat - 55)
  else none

def parseDigitsAux (digitVal : Char → Option Nat) (base acc : Nat) : List Char → Option Nat
  | [] => some acc
  | c :: cs =>
    match digitVal c with
    | some d => parseDigitsAux digitVal base (acc * base + d) cs
    | none => none

/-- Model of QString::toULongLong: the whole string must be digits of the
given base; an empty string, an invalid character, or overflow past
2^64 - 1 makes the conversion fail (Qt then yields 0). -/
def parseNum? (digitVal : Char → Option Nat) (base : Nat) (s : String) : Option Nat :=
  if s.data = [] then none
  else
    match parseDigitsAux digitVal base 0 s.data with
    | some v => if v < 2 ^ 64 then some v else none
    | none => none

/-- s.toULongLong() (base 10): 0 when the conversion fails. -/
def toULongLongDec (s : String) : Nat := (parseNum? decDigitVal 10 s).getD 0

/-- s.toULongLong(nullptr, 16): 0 when the conversion fails. -/
def toULongLongHex (s : String) : Nat := (parseNum? hexDigitVal 16 s).getD 0

/-- One record of the XDPH window-sharing list (picker_logic.h). -/
structure WindowEntry where
  handleId : Nat
  windowClass : String
  title : String
  windowAddr : Nat

/-- QString::indexOf of the marker followed by left and mid around it:
the text before the first occurrence of the marker and the text after it,
or none when the marker does not occur. -/
def findMarker (marker : List Char) : List Char → Option (List Char × List Char)
  | [] => if marker.isPrefixOf ([] : List Char) then some ([], []) else none
  | c :: rest =>
    if marker.isPrefixOf (c :: rest) then
      some ([], (c :: rest).drop marker.length)
    else
      match findMarker marker rest with
      | some (pre, post) => some (c :: pre, post)
      | none => none

/-- The parse loop of parseWindowList, written with explicit fuel so that it
is structurally recursive (each iteration strictly shortens the remaining
text, so any fuel above the input length gives the loop's value; the theorem
parseWindowListAux_irrel below proves the fuel irrelevant). -/
def parseWindowListAux (fuel : Nat) (remaining : List Char) : List WindowEntry :=
  match fuel with
  | 0 => []
  | fuel + 1 =>
    match findMarker "[HC>]".data remaining with
    | none => []
    | some (idStr, r1) =>
      match findMarker "[HT>]".data r1 with
      | none => []
      | some (classStr, r2) =>
        match findMarker "[HE>]".data r2 with
        | none => []
        | some (titleStr, r3) =>
          match findMarker "[HA>]".data r3 with
          | none => []
          | some (addrStr, r4) =>
            { handleId := toULongLongDec (String.mk idStr),
              windowClass := String.mk classStr,
              title := String.mk titleStr,
              windowAddr := toULongLongDec (String.mk addrStr) }
              :: parseWindowListAux fuel r4

/-- parseWindowList (picker_logic.cpp): records are id, class, title and
address, each terminated by its own 5-character sentinel marker; truncated
trailing data is dropped. -/
def parseWindowList (envValue : String) : List WindowEntry :=
  parseWindowListAux (envValue.data.length + 1) envValue.data

/-- findWindowHandle (picker_logic.cpp): first entry whose windowAddr equals
the requested address. -/
def findWindowHandle (windows : List WindowEntry) (hyprlandAddr : Nat) : Option Nat :=
  match windows with
  | [] => none
  | w :: rest =>
    if w.windowAddr = hyprlandAddr then some w.handleId
    else findWindowHandle rest hyprlandAddr

def formatMonitorOutput (sourceId : String) : String :=
  "[SELECTION]/screen:" ++ sourceId

/-- The address parse at the top of formatWindowOutput: a 0x prefix
(QString::startsWith, modelled on the character list) selects base 16 on the
rest of the string (QString::mid(2)), otherwise base 10; failures yield 0. -/
def parseSourceAddr (sourceId : String) : Nat :=
  if "0x".data.isPrefixOf sourceId.data then toULongLongHex (String.mk (sourceId.data.drop 2))
  else toULongLongDec sourceId

/-- formatWindowOutput (picker_logic.cpp); the XDPH_WINDOW_SHARING_LIST
environment value is passed explicitly. -/
def formatWindowOutput (windowListEnv sourceId : String) : String :=
  let hyprlandAddr := parseSourceAddr sourceId
  let windows := parseWindowList windowListEnv
  match findWindowHandle windows hyprlandAddr with
  | some handle => "[SELECTION]/window:" ++ toString handle
  | none => "[SELECTION]/window:" ++ toString hyprlandAddr

def formatRegionOutput (sourceId : String) (x y : Int) (width height : Nat) : String :=
  "[SELECTION]/region:" ++ sourceId ++ "@" ++ toString x ++ "," ++ toString y ++ ","
    ++ toString width ++ "," ++ toString height

/-- Whether the sourceId parses as a decimal number or as a 0x-prefixed
hexadecimal number under the conversions formatWindowOutput applies. -/
def sourceAddrWellFormed (sourceId : String) : Bool :=
  if "0x".data.isPrefixOf sourceId.data then
    (parseNum? hexDigitVal 16 (String.mk (sourceId.data.drop 2))).isSome
  else (parseNum? decDigitVal 10 sourceId).isSome

/-- QDir(dir).filePath(fileName) for a relative fileName: joins with a
single separator. -/
def qdirFilePath (dir fileName : String) : String :=
  if dir.endsWith "/" then dir ++ fileName else dir ++ "/" ++ fileName

/-- getSocketPath (ipc_client.cpp): XDG_RUNTIME_DIR if non-empty, else the
per-uid runtime directory, then the fixed relative socket path. -/
def getSocketPath (xdgRuntimeDir : String) (uid : Nat) : String :=
  let runtimeDir := if xdgRuntimeDir = "" then "/run/user/" ++ toString uid else xdgRuntimeDir
  qdirFilePath runtimeDir "omnirec/service.sock"

def firstNonEmptyStr : List String → String
  | [] => ""
  | s :: rest => if s = "" then firstNonEmptyStr rest else s

/-- Spec-side rendering of the socket-path resolution rule, written from the
spec's words for comparison with the source definition getSocketPath: a
three-tier first-non-empty choice among the runtime-directory environment
variable, the per-process-owner derived path and a world-writable temp
directory, followed by the fixed relative socket path. -/
def getSocketPathSpec (xdgRuntimeDir : String) (uid : Nat) (tmpDir : String) : String :=
  qdirFilePath (firstNonEmptyStr [xdgRuntimeDir, "/run/user/" ++ toString uid, tmpDir])
    "omnirec/service.sock"

/-- The 4-byte little-endian length prefix of a frame. -/
def leLen (b0 b1 b2 b3 : Nat) : Nat :=
  b0 % 256 + 256 * (b1 % 256) + 65536 * (b2 % 256) + 16777216 * (b3 % 256)

/-- Byte-stream model of readLengthPrefixedMessage (ipc_client.cpp): consume
the 4-byte little-endian length; a declared length above 65536 is rejected
before any body byte is consumed (the unread stream is returned unchanged);
otherwise exactly len body bytes are read.  A stream too short to supply the
requested bytes models a read timeout: the read fails. -/
def readLengthPrefixedMessage (stream : List Nat) : Option (List Nat) × List Nat :=
  match stream with
  | b0 :: b1 :: b2 :: b3 :: rest =>
    let len := leLen b0 b1 b2 b3
    if len > 65536 then (none, rest)
    else if rest.length < len then (none, [])
    else (some (rest.take len), rest.drop len)
  | _ => (none, [])

def hexDigitChar (n : Nat) : Char :=
  if n < 10 then Char.ofNat (48 + n) else Char.ofNat (87 + n)

/-- QByteArray::toHex of one byte: two lowercase hex digits. -/
def byteToHex (b : Nat) : List Char :=
  [hexDigitChar (b / 16), hexDigitChar (b % 16)]

/-- The 32 bytes generateApprovalToken draws, each produced by
QRandomGenerator::bounded(256); the oracle rng gives the i-th draw. -/
def tokenBytes (rng : Nat → Nat) : List Nat :=
  (List.range 32).map (fun i => rng i % 256)

/-- generateApprovalToken (dialog.cpp): 32 random bytes rendered as hex. -/
def generateApprovalToken (rng : Nat → Nat) : String :=
  String.mk ((tokenBytes rng).flatMap byteToHex)

def isLowerHexDigit (c : Char) : Bool :=
  ('0' ≤ c && c ≤ '9') || ('a' ≤ c && c ≤ 'f')

/-- ResponseType (ipc_client.h). -/
inductive ResponseType
  | selection
  | noSelection
  | error
  | tokenValid
  | tokenInvalid
  | tokenStored
deriving DecidableEq

/-- Geometry (ipc_client.h): signed position, unsigned size. -/
structure Geometry where
  x : Int
  y : Int
  width : Nat
  height : Nat
deriving DecidableEq

/-- IpcResponse (ipc_client.h). -/
structure IpcResponse where
  type : ResponseType
  sourceType : String
  sourceId : String
  geometry : Option Geometry
  hasApprovalToken : Bool
  errorMessage : String
deriving DecidableEq

def errorResponse (msg : String) : IpcResponse :=
  { type := ResponseType.error, sourceType := "", sourceId := "", geometry := none,
    hasApprovalToken := false, errorMessage := msg }

/-- A decoded JSON response body: the fields parseResponse extracts, with
QJson defaults (missing string is empty, missing bool is false, geometry
present only when the object holds one). -/
structure ParsedJson where
  type : String
  source_type : String
  source_id : String
  has_approval_token : Bool
  geometry : Option Geometry
  message : String
deriving DecidableEq

/-- parseResponse (ipc_client.cpp).  The argument is the JSON parse outcome
of the received bytes (a syntax failure carries the parser detail string);
errIn is the current content of the caller's errorOut string, which the
source leaves untouched on the non-error branches. -/
def parseResponse (parsed : Except String ParsedJson) (errIn : String) : IpcResponse × String :=
  match parsed with
  | Except.error detail =>
    let msg := "Failed to parse response: " ++ detail
    (errorResponse msg, msg)
  | Except.ok obj =>
    if obj.type = "selection" then
      ({ type := ResponseType.selection, sourceType := obj.source_type,
         sourceId := obj.source_id, geometry := obj.geometry,
         hasApprovalToken := obj.has_approval_token, errorMessage := "" }, errIn)
    else if obj.type = "no_selection" then
      ({ type := ResponseType.noSelection, sourceType := "", sourceId := "",
         geometry := none, hasApprovalToken := false, errorMessage := "" }, errIn)
    else if obj.type = "error" then
      (errorResponse obj.message, obj.message)
    else if obj.type = "token_valid" then
      ({ type := ResponseType.tokenValid, sourceType := "", sourceId := "",
         geometry := none, hasApprovalToken := false, errorMessage := "" }, errIn)
    else if obj.type = "token_invalid" then
      ({ type := ResponseType.tokenInvalid, sourceType := "", sourceId := "",
         geometry := none, hasApprovalToken := false, errorMessage := "" }, errIn)
    else if obj.type = "token_stored" ∨ obj.type = "ok" then
      ({ type := ResponseType.tokenStored, sourceType := "", sourceId := "",
         geometry := none, hasApprovalToken := false, errorMessage := "" }, errIn)
    else
      let msg := "Unknown response type: " ++ obj.type
      (errorResponse msg, msg)

/-- Observable actions of a run, in order of occurrence.  connect is a
connectToServer attempt on a fresh QLocalSocket; query and store are the
respective request frames being sent; ask is the consent dialog; output is
one stdout line written and flushed to completion; fallback is the spawn of
the external fallback picker. -/
inductive Ev
  | connect
  | query
  | store
  | ask
  | output (line : String)
  | fallback
deriving DecidableEq

/-- The ways sendLengthPrefixedMessage can fail, with the exact message
templates of the source. -/
inductive SendFail
  | writeLen
  | writeBody
  | flush
deriving DecidableEq

def sendFailMsg (k : SendFail) (errStr : String) : String :=
  match k with
  | SendFail.writeLen => "Failed to write length prefix: " ++ errStr
  | SendFail.writeBody => "Failed to write message body: " ++ errStr
  | SendFail.flush => "Failed to flush socket: " ++ errStr

/-- The ways readLengthPrefixedMessage can fail, with the exact message
templates of the source. -/
inductive ReadFail
  | timeoutLen
  | readLenFail
  | tooLarge (n : Nat)
  | timeoutBody
  | readBodyFail
deriving DecidableEq

def readFailMsg (k : ReadFail) (errStr : String) : String :=
  match k with
  | ReadFail.timeoutLen => "Timeout waiting for response length: " ++ errStr
  | ReadFail.readLenFail => "Failed to read length prefix: " ++ errStr
  | ReadFail.tooLarge n => "Response too large: " ++ (toString n ++ " bytes")
  | ReadFail.timeoutBody => "Timeout waiting for response body: " ++ errStr
  | ReadFail.readBodyFail => "Failed to read response body: " ++ errStr

/-- Outcome of one readLengthPrefixedMessage call as querySelection and
storeToken observe it: a failure (empty data with errorOut set), an empty
frame (declared length 0: empty data with errorOut untouched), or a body
whose JSON parse outcome is given. -/
inductive ReadOutcome
  | fail (k : ReadFail)
  | emptyFrame
  | body (parsed : Except String ParsedJson)

/-- Oracle for one querySelection call: whether waitForConnected succeeds,
whether the three writes succeed, and what the response read yields. -/
structure QueryWorld where
  errStr : String
  connectOk : Bool
  send : Option SendFail
  read : ReadOutcome

/-- querySelection (ipc_client.cpp): opens its own connection, sends the
query_selection frame, reads one response frame and parses it.  Returns the
response, the final errorOut content (initially empty), and the trace. -/
def querySelection (path : String) (w : QueryWorld) : IpcResponse × String × List Ev :=
  if !w.connectOk then
    let msg := "Failed to connect to service (is it running?): "
      ++ (w.errStr ++ (" (path: " ++ (path ++ ")")))
    (errorResponse msg, msg, [Ev.connect])
  else
    let re : IpcResponse × String :=
      match w.send with
      | some k =>
        let msg := sendFailMsg k w.errStr
        (errorResponse msg, msg)
      | none =>
        match w.read with
        | ReadOutcome.fail k =>
          let msg := readFailMsg k w.errStr
          (errorResponse msg, msg)
        | ReadOutcome.emptyFrame => (errorResponse "", "")
        | ReadOutcome.body parsed => parseResponse parsed ""
    (re.1, re.2, [Ev.connect, Ev.query])

/-- Oracle for one storeToken call, of the same shape as QueryWorld. -/
structure StoreWorld where
  errStr : String
  connectOk : Bool
  send : Option SendFail
  read : ReadOutcome

/-- storeToken (ipc_client.cpp): opens its own fresh connection, sends the
store_token frame, interprets token_stored as success, an error response as
failure with its message, anything else as a generic failure. -/
def storeToken (path token : String) (w : StoreWorld) : Bool × String × List Ev :=
  if !w.connectOk then
    (false, "Failed to connect to service: " ++ (w.errStr ++ (" (path: " ++ (path ++ ")"))),
      [Ev.connect])
  else
    let rb : Bool × String :=
      match w.send with
      | some k => (false, sendFailMsg k w.errStr)
      | none =>
        match w.read with
        | ReadOutcome.fail k => (false, readFailMsg k w.errStr)
        | ReadOutcome.emptyFrame => (false, "")
        | ReadOutcome.body parsed =>
          let re := parseResponse parsed ""
          if re.1.type = ResponseType.tokenStored then (true, re.2)
          else if re.1.type = ResponseType.error then (false, re.1.errorMessage)
          else (false, "Unexpected response type")
    (rb.1, rb.2, [Ev.connect, Ev.store])

/-- Oracle for the spawned fallback picker: whether it starts within the
timeout, its captured stdout, and its exit code. -/
structure FallbackWorld where
  startOk : Bool
  stdoutData : String
  exitCode : Nat

/-- runFallbackPicker (picker_logic.cpp): spawn the delegate; on start
failure exit 1; otherwise forward its trimmed stdout (when non-empty) and
translate its exit code to 0 for success, 1 for anything else. -/
def runFallbackPicker (w : FallbackWorld) : Nat × List Ev :=
  if !w.startOk then (1, [Ev.fallback])
  else
    let evs := if w.stdoutData ≠ "" then [Ev.fallback, Ev.output w.stdoutData.trim]
      else [Ev.fallback]
    (if w.exitCode = 0 then 0 else 1, evs)

/-- DialogResult (dialog.h). -/
inductive DialogResult
  | alwaysAllow
  | allowOnce
  | denied
deriving DecidableEq

/-- The consent block of runPicker (main.cpp): when the selection carries no
approval token, show the dialog; Denied aborts (none), AlwaysAllow generates
a fresh token and marks it for storage; with a token, auto-approve silently.
Returns (shouldStoreToken, token, trace of the block). -/
def consentStep (dialog : DialogResult) (rng : Nat → Nat) (response : IpcResponse) :
    Option (Bool × String × List Ev) :=
  match response.hasApprovalToken with
  | false =>
    match dialog with
    | DialogResult.alwaysAllow => some (true, generateApprovalToken rng, [Ev.ask])
    | DialogResult.allowOnce => some (false, "", [Ev.ask])
    | DialogResult.denied => none
  | true => some (false, "", [])

/-- The output-formatting block of runPicker (main.cpp): one line selected
by source type; none models the two fatal cases (region without geometry,
unknown source type). -/
def formatOutput (windowListEnv : String) (response : IpcResponse) : Option String :=
  if response.sourceType = "monitor" then some (formatMonitorOutput response.sourceId)
  else if response.sourceType = "window" then
    some (formatWindowOutput windowListEnv response.sourceId)
  else if response.sourceType = "region" then
    match response.geometry with
    | some geom => some (formatRegionOutput response.sourceId geom.x geom.y geom.width geom.height)
    | none => none
  else none

/-- Oracle for one whole picker invocation. -/
structure PickerWorld where
  xdgRuntimeDir : String
  uid : Nat
  windowList : String
  rng : Nat → Nat
  query : QueryWorld
  dialog : DialogResult
  store : StoreWorld
  fallback : FallbackWorld

/-- runPicker (main.cpp): query the selection; degrade to the fallback
picker on a query failure with a non-empty error or on no_selection; on a
selection, run consent, format the one output line, write and flush it, and
only then, when AlwaysAllow left a token pending, call storeToken, whose
outcome never changes the exit code. -/
def runPicker (w : PickerWorld) : Nat × List Ev :=
  let path := getSocketPath w.xdgRuntimeDir w.uid
  let qres := querySelection path w.query
  let response := qres.1
  let error := qres.2.1
  let evq := qres.2.2
  if response.type = ResponseType.error ∧ error ≠ "" then
    let fres := runFallbackPicker w.fallback
    (fres.1, evq ++ fres.2)
  else
    match response.type with
    | ResponseType.selection =>
      match consentStep w.dialog w.rng response with
      | none => (1, evq ++ [Ev.ask])
      | some (shouldStoreToken, token, evd) =>
        match formatOutput w.windowList response with
        | none => (1, evq ++ evd)
        | some out =>
          match shouldStoreToken with
          | true =>
            let sres := storeToken path token w.store
            (0, evq ++ evd ++ [Ev.output out] ++ sres.2.2)
          | false =>
            (0, evq ++ evd ++ [Ev.output out])
    | ResponseType.noSelection =>
      let fres := runFallbackPicker w.fallback
      (fres.1, evq ++ fres.2)
    | ResponseType.error => (1, evq)
    | _ => (1, evq)

/-- Number of occurrences of an event in a trace. -/
def countEv (e : Ev) : List Ev → Nat
  | [] => 0
  | x :: rest => (if x = e then 1 else 0) + countEv e rest

/-- True when no store frame is sent before the first stdout line has been
written: every store event in the trace is preceded by an output event. -/
def storesAfterOutput : List Ev → Bool
  | [] => true
  | Ev.store :: _ => false
  | Ev.output _ :: _ => true
  | _ :: rest => storesAfterOutput rest

/-- A selection response for monitor DP-1 without a stored approval token. -/
def jsonSelectionNoToken : ParsedJson :=
  { type := "selection", source_type := "monitor", source_id := "DP-1",
    has_approval_token := false, geometry := none, message := "" }

def queryOkNoToken : QueryWorld :=
  { errStr := "", connectOk := true, send := none,
    read := ReadOutcome.body (Except.ok jsonSelectionNoToken) }

def queryNoSelection : QueryWorld :=
  { errStr := "", connectOk := true, send := none,
    read := ReadOutcome.body (Except.ok
      { type := "no_selection", source_type := "", source_id := "",
        has_approval_token := false, geometry := none, message := "" }) }

/-- An error response whose message field is empty. -/
def queryErrorEmptyMessage : QueryWorld :=
  { errStr := "", connectOk := true, send := none,
    read := ReadOutcome.body (Except.ok
      { type := "error", source_type := "", source_id := "",
        has_approval_token := false, geometry := none, message := "" }) }

def storeWorldOk : StoreWorld :=
  { errStr := "", connectOk := true, send := none,
    read := ReadOutcome.body (Except.ok
      { type := "token_stored", source_type := "", source_id := "",
        has_approval_token := false, geometry := none, message := "" }) }

def storeWorldFail : StoreWorld :=
  { errStr := "", connectOk := true, send := none,
    read := ReadOutcome.body (Except.ok
      { type := "error", source_type := "", source_id := "",
        has_approval_token := false, geometry := none, message := "boom" }) }

/-- A run that reaches the AlwaysAllow persistence path. -/
def baseWorld : PickerWorld :=
  { xdgRuntimeDir := "", uid := 1000, windowList := "", rng := fun _ => 0,
    query := queryOkNoToken, dialog := DialogResult.alwaysAllow,
    store := storeWorldOk, fallback := { startOk := true, stdoutData := "", exitCode := 0 } }

/-- A run whose query yields no_selection and whose delegate succeeds. -/
def noSelWorld : PickerWorld :=
  { baseWorld with
    query := queryNoSelection,
    fallback := { startOk := true, stdoutData := "fallback-line", exitCode := 0 } }

/-- A run whose query yields no_selection and whose delegate exits with 2. -/
def noSelWorldExit2 : PickerWorld :=
  { baseWorld with
    query := queryNoSelection,
    fallback := { startOk := true, stdoutData := "", exitCode := 2 } }

/-- A run whose query yields an error response with an empty message. -/
def errorEmptyWorld : PickerWorld :=
  { baseWorld with query := queryErrorEmptyMessage }

/-! ### Supporting lemmas -/

theorem append_ne_empty_left (s t : String) (h : s.length ≠ 0) : s ++ t ≠ "" := by
  intro he
  have hl := congrArg String.length he
  have h0 : ("" : String).length = 0 := rfl
  rw [String.length_append, h0] at hl
  omega

theorem findMarker_le (marker : List Char) :
    ∀ (s pre post : List Char), findMarker marker s = some (pre, post) →
      post.length + marker.length ≤ s.length := by
  intro s
  induction s with
  | nil =>
    intro pre post h
    unfold findMarker at h
    split at h
    · rename_i hp
      have hm : marker.length ≤ 0 := (List.isPrefixOf_iff_prefix.mp hp).length_le
      simp only [Option.some.injEq, Prod.mk.injEq] at h
      obtain ⟨h1, h2⟩ := h
      subst h2
      simp only [List.length_nil]
      omega
    · exact absurd h (by simp)
  | cons c rest ih =>
    intro pre post h
    unfold findMarker at h
    split at h
    · rename_i hp
      have hm : marker.length ≤ (c :: rest).length :=
        (List.isPrefixOf_iff_prefix.mp hp).length_le
      simp only [Option.some.injEq, Prod.mk.injEq] at h
      obtain ⟨h1, h2⟩ := h
      subst h2
      rw [List.length_drop]
      omega
    · rename_i hp
      cases hm : findMarker marker rest with
      | none => rw [hm] at h; exact absurd h (by simp)
      | some pr =>
        obtain ⟨p1, q1⟩ := pr
        rw [hm] at h
        simp only [Option.some.injEq, Prod.mk.injEq] at h
        obtain ⟨h1, h2⟩ := h
        subst h2
        have hrec := ih p1 q1 hm
        simp only [List.length_cons]
        omega

theorem parseWindowListAux_irrel :
    ∀ (f1 f2 : Nat) (s : List Char), s.length < f1 → s.length < f2 →
      parseWindowListAux f1 s = parseWindowListAux f2 s := by
  intro f1
  induction f1 with
  | zero => intro f2 s h1 h2; omega
  | succ n ih =>
    intro f2 s h1 h2
    cases f2 with
    | zero => omega
    | succ m =>
      unfold parseWindowListAux
      cases hm1 : findMarker "[HC>]".data s with
      | none => rfl
      | some pr1 =>
        obtain ⟨idStr, r1⟩ := pr1
        have hl1 := findMarker_le _ _ _ _ hm1
        dsimp only
        cases hm2 : findMarker "[HT>]".data r1 with
        | none => rfl
        | some pr2 =>
          obtain ⟨classStr, r2⟩ := pr2
          have hl2 := findMarker_le _ _ _ _ hm2
          dsimp only
          cases hm3 : findMarker "[HE>]".data r2 with
          | none => rfl
          | some pr3 =>
            obtain ⟨titleStr, r3⟩ := pr3
            have hl3 := findMarker_le _ _ _ _ hm3
            dsimp only
            cases hm4 : findMarker "[HA>]".data r3 with
            | none => rfl
            | some pr4 =>
              obtain ⟨addrStr, r4⟩ := pr4
              have hl4 := findMarker_le _ _ _ _ hm4
              dsimp only
              have hmark1 : ("[HC>]".data).length = 5 := rfl
              have hmark2 : ("[HT>]".data).length = 5 := rfl
              have hmark3 : ("[HE>]".data).length = 5 := rfl
              have hmark4 : ("[HA>]".data).length = 5 := rfl
              rw [hmark1] at hl1
              rw [hmark2] at hl2
              rw [hmark3] at hl3
              rw [hmark4] at hl4
              have hrec := ih m r4 (by omega) (by omega)
              rw [hrec]

theorem findWindowHandle_eq_find? (windows : List WindowEntry) (addr : Nat) :
    findWindowHandle windows addr
      = (windows.find? (fun e => e.windowAddr == addr)).map WindowEntry.handleId := by
  induction windows with
  | nil => rfl
  | cons w rest ih =>
    unfold findWindowHandle
    by_cases h : w.windowAddr = addr
    · rw [List.find?_cons_of_pos]
      · simp [h]
      · simp [h]
    · rw [List.find?_cons_of_neg]
      · simp [h, ih]
      · simp [h]

/-! ### Claims about formatting, paths, frames and tokens -/

/-- C6: for every window sourceId and window table, a matching windowAddr
yields the first matching entry's handleId; with no match, the output shows
the parsed 64-bit address (rendered back in decimal, not the original
sourceId text). -/
theorem c6_window_output (windowListEnv sourceId : String) :
    formatWindowOutput windowListEnv sourceId =
      match (parseWindowList windowListEnv).find?
          (fun e => e.windowAddr == parseSourceAddr sourceId) with
      | some e => "[SELECTION]/window:" ++ toString e.handleId
      | none => "[SELECTION]/window:" ++ toString (parseSourceAddr sourceId) := by
  unfold formatWindowOutput
  dsimp only
  rw [findWindowHandle_eq_find?]
  cases hf : (parseWindowList windowListEnv).find?
      (fun e => e.windowAddr == parseSourceAddr sourceId) with
  | none => simp
  | some e => simp

/-- C6 counterexample: the sourceId 0x1234, absent from an empty table, is
re-rendered from the parsed address in decimal as 4660, not verbatim. -/
theorem c6_raw_address_counterexample :
    formatWindowOutput "" "0x1234" = "[SELECTION]/window:4660" ∧
    formatWindowOutput "" "0x1234" ≠ "[SELECTION]/window:0x1234" := by
  decide

/-- C7: the source socket-path resolution agrees with the spec's three-tier
first-non-empty rule for every choice of temp directory (the per-uid second
tier is never empty, so the third tier can never be selected), and the
result always ends in the fixed relative socket path. -/
theorem c7_socket_path_resolution (xdgRuntimeDir : String) (uid : Nat) (tmpDir : String) :
    getSocketPath xdgRuntimeDir uid = getSocketPathSpec xdgRuntimeDir uid tmpDir ∧
    ∃ dirPart, getSocketPath xdgRuntimeDir uid = dirPart ++ "omnirec/service.sock" := by
  have hne : ("/run/user/" ++ toString uid) ≠ "" :=
    append_ne_empty_left _ _ (by decide)
  have hfst : firstNonEmptyStr [xdgRuntimeDir, "/run/user/" ++ toString uid, tmpDir]
      = if xdgRuntimeDir = "" then "/run/user/" ++ toString uid else xdgRuntimeDir := by
    by_cases h : xdgRuntimeDir = ""
    · simp only [firstNonEmptyStr, if_pos h, if_neg hne]
    · simp only [firstNonEmptyStr, if_neg h]
  have hsuffix : ∀ dir f : String, ∃ p, qdirFilePath dir f = p ++ f := by
    intro dir f
    unfold qdirFilePath
    by_cases hd : dir.endsWith "/"
    · rw [if_pos hd]; exact ⟨dir, rfl⟩
    · rw [if_neg hd]; exact ⟨dir ++ "/", rfl⟩
  constructor
  · unfold getSocketPath getSocketPathSpec
    dsimp only
    rw [hfst]
  · unfold getSocketPath
    dsimp only
    exact hsuffix _ _

/-- C8: a frame whose declared little-endian length is exactly 65536 is
accepted and its body is read in full; any declared length above 65536 is
rejected with the body left unread on the stream. -/
theorem c8_frame_length_boundary :
    (∀ (b0 b1 b2 b3 : Nat) (body rest : List Nat),
      leLen b0 b1 b2 b3 = 65536 → body.length = 65536 →
      readLengthPrefixedMessage (b0 :: b1 :: b2 :: b3 :: (body ++ rest)) = (some body, rest)) ∧
    (∀ (b0 b1 b2 b3 : Nat) (rest : List Nat),
      leLen b0 b1 b2 b3 > 65536 →
      readLengthPrefixedMessage (b0 :: b1 :: b2 :: b3 :: rest) = (none, rest)) := by
  constructor
  · intro b0 b1 b2 b3 body rest hlen hbody
    unfold readLengthPrefixedMessage
    dsimp only
    rw [hlen]
    have h1 : ¬(65536 > 65536) := by omega
    have h2 : ¬((body ++ rest).length < 65536) := by
      rw [List.length_append, hbody]; omega
    rw [if_neg h1, if_neg h2, ← hbody, List.take_left, List.drop_left]
  · intro b0 b1 b2 b3 rest hlen
    unfold readLengthPrefixedMessage
    dsimp only
    rw [if_pos hlen]

/-- C8 witness at the boundary: length 65536 accepted with its 65536-byte
body, length 65537 rejected with the stream beyond the header untouched. -/
theorem c8_witness :
    readLengthPrefixedMessage (0 :: 0 :: 1 :: 0 :: (List.replicate 65536 7 ++ [9]))
        = (some (List.replicate 65536 7), [9]) ∧
    readLengthPrefixedMessage (1 :: 0 :: 1 :: 0 :: [9, 8, 7]) = (none, [9, 8, 7]) :=
  ⟨c8_frame_length_boundary.1 0 0 1 0 (List.replicate 65536 7) [9] (by decide)
      (List.length_replicate 65536 7),
   c8_frame_length_boundary.2 1 0 1 0 [9, 8, 7] (by decide)⟩

theorem flatMap_byteToHex_length (bs : List Nat) :
    (bs.flatMap byteToHex).length = 2 * bs.length := by
  induction bs with
  | nil => rfl
  | cons b rest ih =>
    simp only [List.flatMap_cons, List.length_append, List.length_cons, ih, byteToHex]
    simp
    omega

theorem hexDigitChar_lower (n : Nat) (h : n < 16) : isLowerHexDigit (hexDigitChar n) = true := by
  interval_cases n <;> decide

/-- C9: every generated approval token is 64 lowercase hexadecimal
characters, the hex rendering of the 32 bounded random bytes drawn from the
generator. -/
theorem c9_token_shape (rng : Nat → Nat) :
    (generateApprovalToken rng).length = 64 ∧
    (∀ c ∈ (generateApprovalToken rng).data, isLowerHexDigit c = true) ∧
    (generateApprovalToken rng).data = (tokenBytes rng).flatMap byteToHex ∧
    (tokenBytes rng).length = 32 ∧ (∀ b ∈ tokenBytes rng, b < 256) := by
  have hbytes : (tokenBytes rng).length = 32 := by simp [tokenBytes]
  have hlt : ∀ b ∈ tokenBytes rng, b < 256 := by
    intro b hb
    simp only [tokenBytes, List.mem_map, List.mem_range] at hb
    obtain ⟨i, hi, hb⟩ := hb
    subst hb
    exact Nat.mod_lt _ (by omega)
  refine ⟨?_, ?_, rfl, hbytes, hlt⟩
  · show ((tokenBytes rng).flatMap byteToHex).length = 64
    rw [flatMap_byteToHex_length, hbytes]
  · intro c hc
    have hc2 : c ∈ (tokenBytes rng).flatMap byteToHex := hc
    obtain ⟨b, hb, hcb⟩ := List.mem_flatMap.mp hc2
    have hb256 := hlt b hb
    simp only [byteToHex, List.mem_cons, List.not_mem_nil, or_false] at hcb
    rcases hcb with rfl | rfl
    · exact hexDigitChar_lower _ ((Nat.div_lt_iff_lt_mul (by omega)).mpr (by omega))
    · exact hexDigitChar_lower _ (Nat.mod_lt _ (by omega))

/-- C9 witness: a concrete generator draw has a 64-character token and its
first character is a lowercase hex digit. -/
theorem c9_witness :
    (generateApprovalToken (fun i => i)).length = 64 ∧ isLowerHexDigit '0' = true :=
  ⟨(c9_token_shape (fun i => i)).1,
   (c9_token_shape (fun i => i)).2.1 '0' (by decide)⟩

/-- C10: a window sourceId that parses neither as decimal nor as 0x-prefixed
hexadecimal is treated as address 0, so the output names the first table
entry whose windowAddr is 0 (which is how entries with non-numeric address
text parse) and otherwise is the literal window:0 line. -/
theorem c10_malformed_source_id (windowListEnv sourceId : String)
    (h : sourceAddrWellFormed sourceId = false) :
    parseSourceAddr sourceId = 0 ∧
    formatWindowOutput windowListEnv sourceId =
      (match (parseWindowList windowListEnv).find? (fun e => e.windowAddr == 0) with
       | some e => "[SELECTION]/window:" ++ toString e.handleId
       | none => "[SELECTION]/window:0") ∧
    (∀ addrText : String, (parseNum? decDigitVal 10 addrText).isSome = false →
      toULongLongDec addrText = 0) := by
  have h0 : parseSourceAddr sourceId = 0 := by
    unfold sourceAddrWellFormed at h
    unfold parseSourceAddr
    by_cases hs : "0x".data.isPrefixOf sourceId.data
    · rw [if_pos hs] at h ⊢
      cases hp : parseNum? hexDigitVal 16 (String.mk (sourceId.data.drop 2)) with
      | none => simp [toULongLongHex, hp]
      | some v => rw [hp] at h; simp at h
    · rw [if_neg hs] at h ⊢
      cases hp : parseNum? decDigitVal 10 sourceId with
      | none => simp [toULongLongDec, hp]
      | some v => rw [hp] at h; simp at h
  refine ⟨h0, ?_, ?_⟩
  · unfold formatWindowOutput
    dsimp only
    rw [findWindowHandle_eq_find?, h0]
    cases hf : (parseWindowList windowListEnv).find? (fun e => e.windowAddr == 0) with
    | none => simp; rfl
    | some e => simp
  · intro addrText ha
    unfold toULongLongDec
    cases hp : parseNum? decDigitVal 10 addrText with
    | none => rfl
    | some v => rw [hp] at ha; simp at ha

/-- C10 witness: the non-numeric sourceId abc maps to address 0 and matches
a table entry whose address text xyz parsed to windowAddr 0, so its handleId
7 is emitted. -/
theorem c10_witness :
    parseSourceAddr "abc" = 0 ∧
    formatWindowOutput "7[HC>]c[HT>]t[HE>]xyz[HA>]" "abc" = "[SELECTION]/window:7" := by
  have h := c10_malformed_source_id "7[HC>]c[HT>]t[HE>]xyz[HA>]" "abc" (by decide)
  refine ⟨h.1, ?_⟩
  rw [h.2.1]
  decide

/-! ### Supporting lemmas about the workflow -/

theorem querySelection_trace (p : String) (q : QueryWorld) :
    (querySelection p q).2.2 = [Ev.connect] ∨
      (querySelection p q).2.2 = [Ev.connect, Ev.query] := by
  unfold querySelection
  by_cases h : q.connectOk
  · simp [h]
  · simp [h]

theorem storeToken_trace (p t : String) (s : StoreWorld) :
    (storeToken p t s).2.2 = [Ev.connect] ∨
      (storeToken p t s).2.2 = [Ev.connect, Ev.store] := by
  unfold storeToken
  by_cases h : s.connectOk
  · simp [h]
  · simp [h]

theorem runFallbackPicker_trace (f : FallbackWorld) :
    (runFallbackPicker f).2 = [Ev.fallback] ∨
      ∃ l, (runFallbackPicker f).2 = [Ev.fallback, Ev.output l] := by
  unfold runFallbackPicker
  by_cases h : f.startOk
  · by_cases h2 : f.stdoutData = ""
    · simp [h, h2]
    · simp [h, h2]
  · simp [h]

theorem runFallbackPicker_mem (f : FallbackWorld) : Ev.fallback ∈ (runFallbackPicker f).2 := by
  rcases runFallbackPicker_trace f with h | ⟨l, h⟩ <;> rw [h] <;> simp

theorem querySelection_transport_error (p : String) (q : QueryWorld)
    (h : q.connectOk = false ∨ (∃ k, q.send = some k) ∨
      (∃ k, q.read = ReadOutcome.fail k)) :
    (querySelection p q).1.type = ResponseType.error ∧ (querySelection p q).2.1 ≠ "" := by
  unfold querySelection
  rcases h with hc | ⟨k, hs⟩ | ⟨k, hr⟩
  · simp only [hc]
    exact ⟨rfl, append_ne_empty_left _ _ (by decide)⟩
  · by_cases hc : q.connectOk
    · simp only [hc, hs]
      simp only [Bool.not_true, Bool.false_eq_true, if_false]
      refine ⟨rfl, ?_⟩
      cases k <;> exact append_ne_empty_left _ _ (by decide)
    · simp only [Bool.not_eq_true] at hc
      simp only [hc]
      exact ⟨rfl, append_ne_empty_left _ _ (by decide)⟩
  · by_cases hc : q.connectOk
    · cases hsend : q.send with
      | some k2 =>
        simp only [hc, hsend]
        simp only [Bool.not_true, Bool.false_eq_true, if_false]
        refine ⟨rfl, ?_⟩
        cases k2 <;> exact append_ne_empty_left _ _ (by decide)
      | none =>
        simp only [hc, hsend, hr]
        simp only [Bool.not_true, Bool.false_eq_true, if_false]
        refine ⟨rfl, ?_⟩
        cases k <;> exact append_ne_empty_left _ _ (by decide)
    · simp only [Bool.not_eq_true] at hc
      simp only [hc]
      exact ⟨rfl, append_ne_empty_left _ _ (by decide)⟩

/-- Exhaustive shape analysis of one picker run: the query contributes its
connect(-and-query) events, then the run either delegates to the fallback
picker, exits 1 with no output, exits 1 after only the consent prompt, exits
0 with exactly one output line and no persistence, or exits 0 with the
consent prompt, one output line, and then the storeToken connection. -/
theorem runPicker_cases (w : PickerWorld) :
    ∃ evq, (evq = [Ev.connect] ∨ evq = [Ev.connect, Ev.query]) ∧
      (runPicker w = ((runFallbackPicker w.fallback).1, evq ++ (runFallbackPicker w.fallback).2)
       ∨ runPicker w = (1, evq)
       ∨ runPicker w = (1, evq ++ [Ev.ask])
       ∨ (∃ out evd, (evd = ([] : List Ev) ∨ evd = [Ev.ask]) ∧
            runPicker w = (0, evq ++ evd ++ [Ev.output out]))
       ∨ (∃ out evs, (evs = [Ev.connect] ∨ evs = [Ev.connect, Ev.store]) ∧
            runPicker w = (0, evq ++ [Ev.ask] ++ [Ev.output out] ++ evs))) := by
  have hq := querySelection_trace (getSocketPath w.xdgRuntimeDir w.uid) w.query
  unfold runPicker
  dsimp only
  rcases hqe : querySelection (getSocketPath w.xdgRuntimeDir w.uid) w.query with ⟨resp, err, evq⟩
  obtain ⟨rty, rsty, rsid, rgeo, rtok, rmsg⟩ := resp
  rw [hqe] at hq
  dsimp only at hq
  dsimp only
  refine ⟨evq, hq, ?_⟩
  by_cases hcond : rty = ResponseType.error ∧ err ≠ ""
  · simp only [if_pos hcond]
    exact Or.inl trivial
  · simp only [if_neg hcond]
    cases rty with
    | selection =>
      dsimp only
      unfold consentStep
      dsimp only
      cases rtok with
      | false =>
        dsimp only
        cases hdlg : w.dialog with
        | alwaysAllow =>
          dsimp only
          cases hfo : formatOutput w.windowList
              { type := ResponseType.selection, sourceType := rsty, sourceId := rsid,
                geometry := rgeo, hasApprovalToken := false, errorMessage := rmsg } with
          | none =>
            dsimp only
            exact Or.inr (Or.inr (Or.inl rfl))
          | some out =>
            dsimp only
            rcases hst : storeToken (getSocketPath w.xdgRuntimeDir w.uid)
                (generateApprovalToken w.rng) w.store with ⟨ok, serr, evs⟩
            have hs := storeToken_trace (getSocketPath w.xdgRuntimeDir w.uid)
              (generateApprovalToken w.rng) w.store
            rw [hst] at hs
            dsimp only at hs
            exact Or.inr (Or.inr (Or.inr (Or.inr ⟨out, evs, hs, rfl⟩)))
        | allowOnce =>
          dsimp only
          cases hfo : formatOutput w.windowList
              { type := ResponseType.selection, sourceType := rsty, sourceId := rsid,
                geometry := rgeo, hasApprovalToken := false, errorMessage := rmsg } with
          | none =>
            dsimp only
            exact Or.inr (Or.inr (Or.inl rfl))
          | some out =>
            dsimp only
            exact Or.inr (Or.inr (Or.inr (Or.inl ⟨out, [Ev.ask], Or.inr rfl, rfl⟩)))
        | denied =>
          dsimp only
          exact Or.inr (Or.inr (Or.inl rfl))
      | true =>
        dsimp only
        cases hfo : formatOutput w.windowList
            { type := ResponseType.selection, sourceType := rsty, sourceId := rsid,
              geometry := rgeo, hasApprovalToken := true, errorMessage := rmsg } with
        | none =>
          dsimp only
          rw [List.append_nil]
          exact Or.inr (Or.inl rfl)
        | some out =>
          dsimp only
          exact Or.inr (Or.inr (Or.inr (Or.inl ⟨out, [], Or.inl rfl, rfl⟩)))
    | noSelection => exact Or.inl rfl
    | error => exact Or.inr (Or.inl rfl)
    | tokenValid => exact Or.inr (Or.inl rfl)
    | tokenInvalid => exact Or.inr (Or.inl rfl)
    | tokenStored => exact Or.inr (Or.inl rfl)

theorem runPicker_exit_store_indep (w : PickerWorld) (s1 s2 : StoreWorld) :
    (runPicker { w with store := s1 }).1 = (runPicker { w with store := s2 }).1 := by
  unfold runPicker
  dsimp only
  rcases hqe : querySelection (getSocketPath w.xdgRuntimeDir w.uid) w.query with ⟨resp, err, evq⟩
  obtain ⟨rty, rsty, rsid, rgeo, rtok, rmsg⟩ := resp
  dsimp only
  by_cases hcond : rty = ResponseType.error ∧ err ≠ ""
  · simp only [if_pos hcond]
  · simp only [if_neg hcond]
    cases rty with
    | selection =>
      dsimp only
      unfold consentStep
      dsimp only
      cases rtok with
      | false =>
        dsimp only
        cases hdlg : w.dialog with
        | alwaysAllow =>
          dsimp only
          cases hfo : formatOutput w.windowList
              { type := ResponseType.selection, sourceType := rsty, sourceId := rsid,
                geometry := rgeo, hasApprovalToken := false, errorMessage := rmsg } <;>
            dsimp only
        | allowOnce => rfl
        | denied => rfl
      | true => rfl
    | noSelection => rfl
    | error => rfl
    | tokenValid => rfl
    | tokenInvalid => rfl
    | tokenStored => rfl

theorem runPicker_store_exit_zero (w : PickerWorld)
    (h : Ev.store ∈ (runPicker w).2) : (runPicker w).1 = 0 := by
  obtain ⟨evq, hq, hcase⟩ := runPicker_cases w
  rcases hcase with hr | hr | hr | ⟨out, evd, hevd, hr⟩ | ⟨out, evs, hevs, hr⟩
  · exfalso
    rw [hr] at h
    dsimp only at h
    rcases runFallbackPicker_trace w.fallback with hf | ⟨l, hf⟩ <;>
      rcases hq with h1 | h1 <;> rw [h1, hf] at h <;> simp at h
  · exfalso
    rw [hr] at h
    dsimp only at h
    rcases hq with h1 | h1 <;> rw [h1] at h <;> simp at h
  · exfalso
    rw [hr] at h
    dsimp only at h
    rcases hq with h1 | h1 <;> rw [h1] at h <;> simp at h
  · exfalso
    rw [hr] at h
    dsimp only at h
    rcases hevd with h2 | h2 <;> rcases hq with h1 | h1 <;> rw [h1, h2] at h <;> simp at h
  · rw [hr]

theorem runPicker_ask_le_one (w : PickerWorld) :
    countEv Ev.ask (runPicker w).2 ≤ 1 := by
  obtain ⟨evq, hq, hcase⟩ := runPicker_cases w
  rcases hcase with hr | hr | hr | ⟨out, evd, hevd, hr⟩ | ⟨out, evs, hevs, hr⟩ <;>
    rw [hr] <;> dsimp only
  · rcases runFallbackPicker_trace w.fallback with hf | ⟨l, hf⟩ <;>
      rcases hq with h1 | h1 <;> rw [h1, hf] <;> simp [countEv]
  · rcases hq with h1 | h1 <;> rw [h1] <;> simp [countEv]
  · rcases hq with h1 | h1 <;> rw [h1] <;> simp [countEv]
  · rcases hevd with h2 | h2 <;> rcases hq with h1 | h1 <;> rw [h1, h2] <;> simp [countEv]
  · rcases hevs with h2 | h2 <;> rcases hq with h1 | h1 <;> rw [h1, h2] <;> simp [countEv]

/-! ### Claims about the workflow -/

/-- C1: in every run whose consent decision is AlwaysAllow, no store frame
is sent before the single stdout line has been written and flushed: in the
recorded trace, every store event is preceded by an output event, so
persistence is only reachable after the output write has returned. -/
theorem c1_emit_before_persist (w : PickerWorld)
    (hd : w.dialog = DialogResult.alwaysAllow) :
    storesAfterOutput (runPicker w).2 = true := by
  obtain ⟨evq, hq, hcase⟩ := runPicker_cases w
  rcases hcase with hr | hr | hr | ⟨out, evd, hevd, hr⟩ | ⟨out, evs, hevs, hr⟩ <;>
    rw [hr] <;> dsimp only
  · rcases runFallbackPicker_trace w.fallback with hf | ⟨l, hf⟩ <;>
      rcases hq with h1 | h1 <;> rw [h1, hf] <;> rfl
  · rcases hq with h1 | h1 <;> rw [h1] <;> rfl
  · rcases hq with h1 | h1 <;> rw [h1] <;> rfl
  · rcases hevd with h2 | h2 <;> rcases hq with h1 | h1 <;> rw [h1, h2] <;> rfl
  · rcases hevs with h2 | h2 <;> rcases hq with h1 | h1 <;> rw [h1, h2] <;> rfl

/-- C1 witness: a concrete AlwaysAllow run keeps every store event after the
output event. -/
theorem c1_witness : storesAfterOutput (runPicker baseWorld).2 = true :=
  c1_emit_before_persist baseWorld rfl

/-- C2: the exit code of a run never depends on the storeToken oracle; any
run that sends the store frame exits 0; and no run shows the consent dialog
more than once. -/
theorem c2_persistence_failure_swallowed (w : PickerWorld) (s1 s2 : StoreWorld) :
    (runPicker { w with store := s1 }).1 = (runPicker { w with store := s2 }).1 ∧
    (Ev.store ∈ (runPicker { w with store := s1 }).2 →
      (runPicker { w with store := s1 }).1 = 0) ∧
    countEv Ev.ask (runPicker { w with store := s1 }).2 ≤ 1 :=
  ⟨runPicker_exit_store_indep w s1 s2,
   fun h => runPicker_store_exit_zero _ h,
   runPicker_ask_le_one _⟩

/-- C2 witness: a concrete persistence run exits 0 and its exit code is
unchanged when the store oracle is switched from success to failure. -/
theorem c2_witness :
    (runPicker { baseWorld with store := storeWorldOk }).1
      = (runPicker { baseWorld with store := storeWorldFail }).1 ∧
    (runPicker { baseWorld with store := storeWorldOk }).1 = 0 :=
  ⟨(c2_persistence_failure_swallowed baseWorld storeWorldOk storeWorldFail).1,
   (c2_persistence_failure_swallowed baseWorld storeWorldOk storeWorldFail).2.1 (by decide)⟩

/-- C3 (amended): a transport failure of the initial query, a no_selection
response, or an error response carrying a non-empty message all degrade to
the fallback picker, whose exit code becomes the workflow's; an error
response with an empty message instead exits 1 (see the counterexample). -/
theorem c3_query_failure_degrades (w : PickerWorld)
    (h : (w.query.connectOk = false ∨ (∃ k, w.query.send = some k) ∨
            (∃ k, w.query.read = ReadOutcome.fail k))
         ∨ (querySelection (getSocketPath w.xdgRuntimeDir w.uid) w.query).1.type
             = ResponseType.noSelection
         ∨ ((querySelection (getSocketPath w.xdgRuntimeDir w.uid) w.query).1.type
              = ResponseType.error
            ∧ (querySelection (getSocketPath w.xdgRuntimeDir w.uid) w.query).2.1 ≠ "")) :
    (runPicker w).1 = (runFallbackPicker w.fallback).1 ∧ Ev.fallback ∈ (runPicker w).2 := by
  have h2 : ((querySelection (getSocketPath w.xdgRuntimeDir w.uid) w.query).1.type
        = ResponseType.error
      ∧ (querySelection (getSocketPath w.xdgRuntimeDir w.uid) w.query).2.1 ≠ "")
      ∨ (querySelection (getSocketPath w.xdgRuntimeDir w.uid) w.query).1.type
          = ResponseType.noSelection := by
    rcases h with h | h | h
    · exact Or.inl (querySelection_transport_error _ _ h)
    · exact Or.inr h
    · exact Or.inl h
  unfold runPicker
  dsimp only
  rcases hqe : querySelection (getSocketPath w.xdgRuntimeDir w.uid) w.query with ⟨resp, err, evq⟩
  rw [hqe] at h2
  dsimp only at h2 ⊢
  rcases h2 with ⟨ht, hne⟩ | ht
  · simp only [if_pos (And.intro ht hne)]
    refine ⟨?_, List.mem_append_right _ (runFallbackPicker_mem w.fallback)⟩
    trivial
  · have hcond : ¬(resp.type = ResponseType.error ∧ err ≠ "") := by
      rintro ⟨hc, _⟩
      rw [ht] at hc
      exact absurd hc (by simp)
    simp only [if_neg hcond]
    rw [ht]
    dsimp only
    exact ⟨rfl, List.mem_append_right _ (runFallbackPicker_mem w.fallback)⟩

/-- C3 counterexample: an error response whose message is empty makes the
run exit 1 without ever invoking the fallback picker, contradicting the
claim that every error response degrades to the fallback path. -/
theorem c3_error_empty_message_counterexample :
    (runPicker errorEmptyWorld).1 = 1 ∧ Ev.fallback ∉ (runPicker errorEmptyWorld).2 := by
  decide

/-- C3 witness: a concrete no_selection run adopts the fallback exit code
and its trace shows the fallback launch. -/
theorem c3_witness :
    (runPicker noSelWorld).1 = (runFallbackPicker noSelWorld.fallback).1 ∧
      Ev.fallback ∈ (runPicker noSelWorld).2 :=
  c3_query_failure_degrades noSelWorld (Or.inr (Or.inl (by decide)))

/-- C4 (amended): whenever the store frame is sent, it travels over a
second, freshly opened connection: the run's trace holds exactly two
connect events, one opened by querySelection and one opened by storeToken,
used sequentially; no single connection serves both calls. -/
theorem c4_store_uses_second_connection (w : PickerWorld)
    (h : Ev.store ∈ (runPicker w).2) :
    countEv Ev.connect (runPicker w).2 = 2 := by
  obtain ⟨evq, hq, hcase⟩ := runPicker_cases w
  rcases hcase with hr | hr | hr | ⟨out, evd, hevd, hr⟩ | ⟨out, evs, hevs, hr⟩
  · exfalso
    rw [hr] at h
    dsimp only at h
    rcases runFallbackPicker_trace w.fallback with hf | ⟨l, hf⟩ <;>
      rcases hq with h1 | h1 <;> rw [h1, hf] at h <;> simp at h
  · exfalso
    rw [hr] at h
    dsimp only at h
    rcases hq with h1 | h1 <;> rw [h1] at h <;> simp at h
  · exfalso
    rw [hr] at h
    dsimp only at h
    rcases hq with h1 | h1 <;> rw [h1] at h <;> simp at h
  · exfalso
    rw [hr] at h
    dsimp only at h
    rcases hevd with h2 | h2 <;> rcases hq with h1 | h1 <;> rw [h1, h2] at h <;> simp at h
  · rw [hr] at h ⊢
    dsimp only at h ⊢
    rcases hevs with h2 | h2
    · exfalso
      rcases hq with h1 | h1 <;> rw [h1, h2] at h <;> simp at h
    · rcases hq with h1 | h1 <;> rw [h1, h2] <;> simp [countEv]

/-- C4 counterexample: a concrete AlwaysAllow run that stores its token
opens two connections, not one. -/
theorem c4_single_connection_counterexample :
    Ev.store ∈ (runPicker baseWorld).2 ∧
      countEv Ev.connect (runPicker baseWorld).2 ≠ 1 := by
  decide

/-- C4 witness: the same concrete run counted through the amended claim. -/
theorem c4_witness : countEv Ev.connect (runPicker baseWorld).2 = 2 :=
  c4_store_uses_second_connection baseWorld (by decide)

/-- C5 (amended): the fallback launcher translates the delegate's exit code
to the zero-or-one range: 0 when the delegate started and exited 0, and 1
for every other delegate exit code or a start failure — never verbatim. -/
theorem c5_fallback_exit_translated (f : FallbackWorld) :
    (runFallbackPicker f).1 = if f.startOk = true ∧ f.exitCode = 0 then 0 else 1 := by
  unfold runFallbackPicker
  by_cases h : f.startOk
  · by_cases h0 : f.exitCode = 0 <;> simp [h, h0]
  · simp [h]

/-- C5 counterexample: a delegate exiting with code 2 makes the workflow
exit 1, not 2. -/
theorem c5_verbatim_counterexample :
    (runPicker noSelWorldExit2).1 = 1 ∧ (runPicker noSelWorldExit2).1 ≠ 2 := by
  decide

end OmniRec
